import Mathlib

/-!
Verification of the ShadowNet-Nexus detection-and-capture pipeline.

This file gives a shallow embedding, in Lean, of the parts of the repository
that the checked properties concern:

* `src/utils/evidence_vault.py` — the evidence vault: custody ledger,
  evidence / artifact / report preservation, integrity verification;
* `src/core/emergency_snapshot.py` — the emergency snapshot engine;
* `src/core/proactive_evidence_collector.py` — the threat pattern matcher;
* `src/shadownet_realtime.py` — the deduplicating suspicious-command handler;
* `src/core/process_monitor.py` — command-text fallback in the monitors.

Files become assoc lists from names to contents, the SHA-256 digest becomes an
abstract function parameter `hash : String → String` (collision-freeness is a
hypothesis where a property needs it), `datetime.now().strftime(...)` becomes a
string parameter `ts`, and fallible external effects (file copies, shelled-out
tools, the AI analyzer) become `Option`-valued inputs.
-/

namespace ShadowNet

/-! ### Association-list helpers

Python dicts (and directories of files) are modelled as association lists in
insertion order.  `alistSet` mirrors both `d[k] = v` on a dict and writing a
file into a directory: an existing key is replaced in place, a new key is
appended at the end. -/

def alistLookup {β : Type} : List (String × β) → String → Option β
  | [], _ => none
  | (k, v) :: rest, key => if k = key then some v else alistLookup rest key

def alistSet {β : Type} : List (String × β) → String → β → List (String × β)
  | [], key, val => [(key, val)]
  | (k, v) :: rest, key, val =>
      if k = key then (key, val) :: rest else (k, v) :: alistSet rest key val

def alistRemove {β : Type} : List (String × β) → String → List (String × β)
  | [], _ => []
  | (k, v) :: rest, key => if k = key then rest else (k, v) :: alistRemove rest key

/-- Python's substring test `needle in hay` on lists of characters. -/
def infixAt : List Char → List Char → Bool
  | needle, [] => needle.isEmpty
  | needle, c :: rest => needle.isPrefixOf (c :: rest) || infixAt needle rest

/-- Python's `needle in hay` on strings. -/
def pyContains (hay needle : String) : Bool := infixAt needle.data hay.data

/-- ASCII lowering of one character, as `str.lower()` acts on the ASCII
commands and signatures this system handles. -/
def lowerChar (c : Char) : Char :=
  if 65 ≤ c.toNat ∧ c.toNat ≤ 90 then Char.ofNat (c.toNat + 32) else c

/-- Python's `s.lower()` (on ASCII text). -/
def strToLower (s : String) : String := ⟨s.data.map lowerChar⟩

/-- Python's whitespace set for `str.strip()`. -/
def pyWhitespace (c : Char) : Bool :=
  c = ' ' || c = '\t' || c = '\n' || c = '\r' || c = '\x0b' || c = '\x0c'

/-- Python's `s.strip() == ""`: every character is whitespace. -/
def strBlank (s : String) : Bool := s.data.all pyWhitespace

/-! ### Evidence vault (`src/utils/evidence_vault.py`)

The vault root holds `incidents/` (one directory per incident, each a set of
`<evidence_id>.json` files), `artifacts/` (one directory per incident),
`reports/` (flat files), and the ledger file `chain_of_custody.json`, which is
either absent (`none`) or a JSON list of entries. -/

/-- One entry of `chain_of_custody.json`.  Entries written by
`preserve_evidence` and `save_report` carry the key `evidence_id`; entries
written by `preserve_file_artifact` carry `artifact_id` instead, so
`entry.get('evidence_id')` is `none` on them. -/
structure CustodyEntry where
  evidence_id : Option String
  artifact_id : Option String
  incident_id : String
  evidence_type : Option String
  artifact_type : Option String
  timestamp : String
  file_path : Option String
  source_path : Option String
  preserved_path : Option String
  hash_sha256 : String
  collected_by : String
  action : String
deriving Repr, DecidableEq

structure VaultState where
  incidents : List (String × List (String × String))
  artifacts : List (String × List (String × String))
  reports : List (String × String)
  ledgerFile : Option (List CustodyEntry)
deriving Repr, DecidableEq

/-- `EvidenceVault._init_chain_of_custody`: write an empty JSON list, but only
when the ledger file does not already exist. -/
def initChainOfCustody (st : VaultState) : VaultState :=
  match st.ledgerFile with
  | none => { st with ledgerFile := some [] }
  | some _ => st

/-- `EvidenceVault.__init__`: the `mkdir(..., exist_ok=True)` calls create the
vault directories without touching any existing file, then
`_init_chain_of_custody` runs.  Its effect on the modelled state is exactly
`initChainOfCustody`. -/
def vaultInit (st : VaultState) : VaultState := initChainOfCustody st

/-- Reading `chain_of_custody.json` (`get_chain_of_custody` with no filter). -/
def readCustody (st : VaultState) : List CustodyEntry :=
  (st.ledgerFile).getD []

/-- `EvidenceVault._add_custody_entry`: read the whole ledger, append the
entry, rewrite the file. -/
def addCustodyEntry (entry : CustodyEntry) (st : VaultState) : VaultState :=
  { st with ledgerFile := some (readCustody st ++ [entry]) }

/-- The custody dict literal of `preserve_evidence`. -/
def evidenceEntry (hash : String → String)
    (incident_id content evidence_type ts iso : String) : CustodyEntry :=
  { evidence_id := some ("EVD-" ++ ts ++ "-" ++ evidence_type)
    artifact_id := none
    incident_id := incident_id
    evidence_type := some evidence_type
    artifact_type := none
    timestamp := iso
    file_path := some ("incidents/" ++ incident_id ++ "/" ++
      ("EVD-" ++ ts ++ "-" ++ evidence_type) ++ ".json")
    source_path := none
    preserved_path := none
    hash_sha256 := hash content
    collected_by := "ShadowNet Nexus"
    action := "evidence_preserved" }

/-- `EvidenceVault.preserve_evidence`.  `content` is the serialized JSON text
of `evidence_data`; `ts` is `timestamp.strftime('%Y%m%d-%H%M%S')` and `iso`
is `timestamp.isoformat()`. -/
def preserveEvidence (hash : String → String) (incident_id content evidence_type ts iso : String)
    (st : VaultState) : VaultState × String :=
  let evidence_id := "EVD-" ++ ts ++ "-" ++ evidence_type
  let dir := (alistLookup st.incidents incident_id).getD []
  let dir' := alistSet dir evidence_id content
  let st1 := { st with incidents := alistSet st.incidents incident_id dir' }
  (addCustodyEntry (evidenceEntry hash incident_id content evidence_type ts iso) st1,
   evidence_id)

/-- The custody dict literal of `preserve_file_artifact`: keyed by
`artifact_id`, with no `evidence_id` key. -/
def artifactEntry (hash : String → String)
    (incident_id source_file source_name content artifact_type ts iso : String) : CustodyEntry :=
  { evidence_id := none
    artifact_id := some ("ART-" ++ ts ++ "-" ++ artifact_type)
    incident_id := incident_id
    evidence_type := none
    artifact_type := some artifact_type
    timestamp := iso
    file_path := none
    source_path := some source_file
    preserved_path := some ("artifacts/" ++ incident_id ++ "/" ++
      ("ART-" ++ ts ++ "-" ++ artifact_type ++ "_" ++ source_name))
    hash_sha256 := hash content
    collected_by := "ShadowNet Nexus"
    action := "artifact_preserved" }

/-- `EvidenceVault.preserve_file_artifact`.  `source_name` is
`Path(source_file).name`; `source_content` is `some` of the copied bytes when
`shutil.copy2` succeeds and `none` when it raises (the `except` branch then
returns `""` without touching the ledger).  The artifact directory itself is
created before the `try` block. -/
def preserveFileArtifact (hash : String → String)
    (incident_id source_file source_name : String) (source_content : Option String)
    (artifact_type ts iso : String) (st : VaultState) : VaultState × String :=
  let artifact_id := "ART-" ++ ts ++ "-" ++ artifact_type
  let adir := (alistLookup st.artifacts incident_id).getD []
  let st1 := { st with artifacts := alistSet st.artifacts incident_id adir }
  let dest_name := artifact_id ++ "_" ++ source_name
  match source_content with
  | none => (st1, "")
  | some content =>
      let adir' := alistSet adir dest_name content
      let st2 := { st1 with artifacts := alistSet st1.artifacts incident_id adir' }
      (addCustodyEntry
        (artifactEntry hash incident_id source_file source_name content artifact_type ts iso)
        st2, artifact_id)

/-- The custody dict literal of `save_report` (written only for forensic
reports). -/
def reportEntry (hash : String → String)
    (incident_id report_content report_type ts iso : String) : CustodyEntry :=
  { evidence_id := some ("REP-" ++ ts)
    artifact_id := none
    incident_id := incident_id
    evidence_type := some report_type
    artifact_type := none
    timestamp := iso
    file_path := some ("reports/" ++
      (incident_id ++ "_" ++ report_type ++ "_" ++ ts ++ ".md"))
    source_path := none
    preserved_path := none
    hash_sha256 := hash report_content
    collected_by := "ShadowNet Nexus"
    action := "report_generated" }

/-- `EvidenceVault.save_report`: write the report file, and only for
`report_type == "forensic"` hash it and append a custody entry. -/
def saveReport (hash : String → String)
    (incident_id report_content report_type ts iso : String)
    (st : VaultState) : VaultState × String :=
  let fname := incident_id ++ "_" ++ report_type ++ "_" ++ ts ++ ".md"
  let st1 := { st with reports := alistSet st.reports fname report_content }
  let path := "reports/" ++ fname
  if report_type = "forensic" then
    (addCustodyEntry (reportEntry hash incident_id report_content report_type ts iso) st1,
     path)
  else (st1, path)

/-- The inner scan of `verify_evidence_integrity`: first custody entry whose
`evidence_id` key equals the requested id. -/
def findCustodyHash (eid : String) : List CustodyEntry → Option String
  | [] => none
  | e :: rest =>
      if e.evidence_id = some eid then some e.hash_sha256 else findCustodyHash eid rest

/-- The directory walk of `verify_evidence_integrity`: for each incident
directory, if `<eid>.json` exists there, hash it and compare against the first
matching custody entry; with no matching entry the walk continues; with no
hit anywhere the result is `False`. -/
def verifySearch (hash : String → String) (eid : String) (custody : List CustodyEntry) :
    List (String × List (String × String)) → Bool
  | [] => false
  | (_, files) :: rest =>
      match alistLookup files eid with
      | some content =>
          match findCustodyHash eid custody with
          | some original => hash content = original
          | none => verifySearch hash eid custody rest
      | none => verifySearch hash eid custody rest

/-- `EvidenceVault.verify_evidence_integrity`. -/
def verifyEvidenceIntegrity (hash : String → String) (eid : String) (st : VaultState) : Bool :=
  verifySearch hash eid (readCustody st) st.incidents

/-- Out-of-band tampering with a stored evidence file: overwrite the file
`eid` inside the incident's directory with new contents. -/
def modifyEvidenceFile (incident eid newContent : String) (st : VaultState) : VaultState :=
  { st with incidents := (alistSet st.incidents incident
      (alistSet ((alistLookup st.incidents incident).getD []) eid newContent)) }

/-- Out-of-band deletion of a stored evidence file from the incident's
directory. -/
def deleteEvidenceFile (incident eid : String) (st : VaultState) : VaultState :=
  { st with incidents := (alistSet st.incidents incident
      (alistRemove ((alistLookup st.incidents incident).getD []) eid)) }

/-! ### Preservation sequences

One constructor per preservation operation of the vault, as named by the
ledger-growth property: `preserve_evidence`, a *successful*
`preserve_file_artifact` (the copied bytes are present), and `save_report`
(whose report type is a parameter, since only forensic reports reach the
ledger). -/

inductive PreserveOp where
  | evidence (incident_id content evidence_type ts iso : String)
  | artifact (incident_id source_file source_name content artifact_type ts iso : String)
  | report (incident_id report_content report_type ts iso : String)
deriving Repr, DecidableEq

def applyOp (hash : String → String) : PreserveOp → VaultState → VaultState
  | .evidence i c e ts iso, st => (preserveEvidence hash i c e ts iso st).1
  | .artifact i sf sn c a ts iso, st => (preserveFileArtifact hash i sf sn (some c) a ts iso st).1
  | .report i c rt ts iso, st => (saveReport hash i c rt ts iso st).1

def runOps (hash : String → String) (ops : List PreserveOp) (st : VaultState) : VaultState :=
  ops.foldl (fun s op => applyOp hash op s) st

/-- Whether the operation reaches `_add_custody_entry`: all do except
`save_report` with a non-forensic report type. -/
def opRecords : PreserveOp → Bool
  | .report _ _ rt _ _ => rt = "forensic"
  | _ => true

/-- The single ledger entry a custody-recording operation appends. -/
def opEntry (hash : String → String) : PreserveOp → CustodyEntry
  | .evidence i c e ts iso => evidenceEntry hash i c e ts iso
  | .artifact i sf sn c a ts iso => artifactEntry hash i sf sn c a ts iso
  | .report i c rt ts iso => reportEntry hash i c rt ts iso

/-! ### Emergency snapshot engine (`src/core/emergency_snapshot.py`) -/

/-- The five capture-task targets `emergency_snapshot` can hand to a thread. -/
inductive CaptureTask where
  | eventLogs
  | vssState
  | filesystemMetadata
  | processState
  | networkState
deriving Repr, DecidableEq

/-- The list of capture threads `emergency_snapshot` creates and starts, in
the order the source appends them: the threat-conditional tasks, then the
always-on process-state task, then the network task when enabled.  The list
does not depend on the platform. -/
def snapshotTasks (threat_type : String) (capture_network : Bool) : List CaptureTask :=
  (if threat_type = "log_clearing" then [CaptureTask.eventLogs] else []) ++
  (if threat_type = "vss_deletion" then [CaptureTask.vssState] else []) ++
  (if threat_type = "file_wiping" then [CaptureTask.filesystemMetadata] else []) ++
  [CaptureTask.processState] ++
  (if capture_network then [CaptureTask.networkState] else [])

/-- `EmergencySnapshotEngine.emergency_snapshot`: the returned id is
`SNAP-` followed by `datetime.now().strftime('%Y%m%d-%H%M%S')` (second
granularity), here the parameter `ts`; the snapshot directory is named by the
id, and the launched tasks are `snapshotTasks`. -/
def emergencySnapshot (ts threat_type command : String) (capture_network : Bool) :
    String × List CaptureTask :=
  ("SNAP-" ++ ts, snapshotTasks threat_type capture_network)

/-- `EmergencySnapshotEngine._snapshot_vss_state`: on any platform other than
Windows it returns immediately (no file, no error); on Windows it shells out
to `vssadmin list shadows` and writes its stdout to `vss_state.txt`, and a
raised exception (`vss_cmd = none`) is caught, leaving no artifact.  The
result is the artifact written into the snapshot directory, if any. -/
def snapshotVssState (os_type : String) (vss_cmd : Option String) :
    Option (String × String) :=
  if os_type ≠ "windows" then none
  else
    match vss_cmd with
    | some out => some ("vss_state.txt", out)
    | none => none

/-- The platform guard of `_snapshot_vss_state`: volume-shadow-copy state
capture is supported exactly on Windows. -/
def vssSupported (os_type : String) : Bool := os_type = "windows"

/-! ### Threat pattern matcher (`src/core/proactive_evidence_collector.py`) -/

/-- One value of the `threat_patterns` table. -/
structure ThreatInfo where
  threat_type : String
  severity : String
  description : String
deriving Repr, DecidableEq

/-- The platform flag reported by `os_detector` (exactly one of
`is_windows` / `is_linux` / `is_mac` holds, else none). -/
inductive Platform where
  | windows
  | linux
  | mac
  | other
deriving Repr, DecidableEq

def windowsPatterns : List (String × ThreatInfo) :=
  [ ("wevtutil", ⟨"log_clearing", "CRITICAL", "Windows Event Log manipulation"⟩)
  , ("vssadmin delete", ⟨"vss_deletion", "CRITICAL", "Volume Shadow Copy deletion"⟩)
  , ("cipher /w", ⟨"file_wiping", "HIGH", "Secure file deletion"⟩)
  , ("Clear-EventLog", ⟨"log_clearing", "CRITICAL", "PowerShell event log clearing"⟩)
  , ("bcdedit", ⟨"boot_config", "HIGH", "Boot configuration modification"⟩) ]

def linuxPatterns : List (String × ThreatInfo) :=
  [ ("shred", ⟨"file_wiping", "HIGH", "Secure file deletion"⟩)
  , ("history -c", ⟨"log_clearing", "MEDIUM", "Command history clearing"⟩)
  , ("rm -rf /var/log", ⟨"log_clearing", "CRITICAL", "System log deletion"⟩)
  , ("journalctl --vacuum", ⟨"log_clearing", "HIGH", "Journal log cleanup"⟩)
  , ("auditctl -D", ⟨"log_clearing", "CRITICAL", "Audit log deletion"⟩) ]

def macPatterns : List (String × ThreatInfo) :=
  [ ("srm", ⟨"file_wiping", "HIGH", "Secure file deletion"⟩)
  , ("log erase", ⟨"log_clearing", "CRITICAL", "System log erasure"⟩)
  , ("rm -rf /var/log", ⟨"log_clearing", "CRITICAL", "System log deletion"⟩) ]

/-- `ProactiveEvidenceCollector._build_threat_patterns`: the dict built by the
`patterns.update(...)` block guarded by the one platform flag that holds,
items in insertion order. -/
def threatPatterns : Platform → List (String × ThreatInfo)
  | .windows => windowsPatterns
  | .linux => linuxPatterns
  | .mac => macPatterns
  | .other => []

/-- The dict literal `severity_upgrade` together with its `.get(sev,
'CRITICAL')` default. -/
def severityUpgrade (s : String) : String :=
  if s = "LOW" then "MEDIUM"
  else if s = "MEDIUM" then "HIGH"
  else if s = "HIGH" then "CRITICAL"
  else "CRITICAL"

/-- The inner loop of `should_capture`: first table entry whose lowercased
pattern occurs in the (already lowercased) command. -/
def findPattern (patterns : List (String × ThreatInfo)) (cmd : String) : Option ThreatInfo :=
  match patterns with
  | [] => none
  | (p, info) :: rest => if pyContains cmd (strToLower p) then some info else findPattern rest cmd

/-- The outer loop of `should_capture`: `commands_to_check` in order. -/
def findFirstMatch (patterns : List (String × ThreatInfo)) : List String → Option ThreatInfo
  | [] => none
  | c :: cs =>
      match findPattern patterns c with
      | some info => some info
      | none => findFirstMatch patterns cs

/-- `ProactiveEvidenceCollector.should_capture`.  The de-obfuscated command
and the detected obfuscation techniques are inputs (`CommandDecoder` does the
decoding for the caller).  On a match with obfuscation markers and a
non-CRITICAL baseline, the returned copy carries an extended description and
the severity upgraded one step. -/
def shouldCapture (patterns : List (String × ThreatInfo)) (enabled : Bool)
    (command decoded : String) (obf : List String) : Option ThreatInfo :=
  if enabled = false then none
  else
    match findFirstMatch patterns [strToLower command, strToLower decoded] with
    | none => none
    | some info =>
        if ¬ obf.isEmpty ∧ info.severity ≠ "CRITICAL" then
          some { info with
                 description := info.description ++ " (Obfuscated: " ++
                   String.intercalate ", " obf ++ ")"
                 severity := severityUpgrade info.severity }
        else some info

/-! ### Real-time handler with deduplication (`src/shadownet_realtime.py`) -/

/-- The result of `ai_analyzer.analyze_command` (only the field the handler
reads). -/
structure AiRes where
  is_anti_forensics : Bool
deriving Repr, DecidableEq

/-- One work item put on `incident_queue` by `on_suspicious_command`. -/
structure WorkItem where
  command : String
  matched_keywords : List String
  name : String
  is_critical : Bool
deriving Repr, DecidableEq

/-- The mutable state `on_suspicious_command` touches: the `recent_commands`
dedup map (key to `time.time()` of the last trigger), the `detections`
counter, and the incident queue. -/
structure RTState where
  recent : List (String × ℚ)
  detections : ℕ
  queue : List WorkItem
deriving Repr, DecidableEq

/-- The forensic-tool names hard-coded in `on_suspicious_command`. -/
def forensicTools : List String := ["wevtutil.exe", "vssadmin.exe", "cipher.exe"]

def matchedKeywords (keywords : List String) (command : String) : List String :=
  keywords.filter (fun k => pyContains (strToLower command) (strToLower k))

def isForensicTool (name : String) : Bool :=
  forensicTools.any (fun t => pyContains (strToLower name) t)

/-- `cmd_key in recent_commands and (now - recent_commands[cmd_key]) < 30`. -/
def dedupSuppressed (recent : List (String × ℚ)) (key : String) (now : ℚ) : Bool :=
  match alistLookup recent key with
  | some last => now - last < 30
  | none => false

/-- The body of `on_suspicious_command` past the dedup check: record the key,
match keywords and tool names, return early when neither matched, else count
the detection and enqueue a work item — on an AI success when the verdict is
a threat or the event is critical, on an AI exception (`ai = none`) when it
is critical.  `is_critical` is `len(matched) > 0 or is_forensic_tool`. -/
def onSuspiciousCore (keywords : List String) (ai : Option AiRes)
    (command name : String) (now : ℚ) (st : RTState) : RTState :=
  let key := name ++ ":" ++ command
  let st1 := { st with recent := alistSet st.recent key now }
  let matched := matchedKeywords keywords command
  let isTool := isForensicTool name
  if matched.isEmpty && !isTool then st1
  else
    let st2 := { st1 with detections := st1.detections + 1 }
    let isCritical : Bool := !matched.isEmpty || isTool
    match ai with
    | some res =>
        if res.is_anti_forensics || isCritical then
          { st2 with queue := st2.queue ++ [⟨command, matched, name, isCritical⟩] }
        else st2
    | none =>
        if isCritical then
          { st2 with queue := st2.queue ++ [⟨command, matched, name, true⟩] }
        else st2

/-- `on_suspicious_command`: a repeat key within 30 seconds of its last
trigger only bumps `detections` and returns; otherwise the core body runs.
`ai` is the outcome of the `ai_analyzer.analyze_command` call for this event
(`none` models a raised exception). -/
def onSuspiciousCommand (keywords : List String) (ai : Option AiRes)
    (command name : String) (now : ℚ) (st : RTState) : RTState :=
  let key := name ++ ":" ++ command
  if dedupSuppressed st.recent key now then
    { st with detections := st.detections + 1 }
  else onSuspiciousCore keywords ai command name now st

/-! ### Process monitors (`src/core/process_monitor.py`) -/

/-- `BaseProcessMonitor._is_suspicious`: an empty command is never suspicious;
otherwise any keyword occurring (case-insensitively) in it makes it so. -/
def isSuspicious (keywords : List String) (command : String) : Bool :=
  if command = "" then false
  else keywords.any (fun kw => pyContains (strToLower command) (strToLower kw))

/-- The `is_suspicious_exe` check shared by all monitor loops. -/
def isSuspiciousExe (keywords : List String) (name : String) : Bool :=
  keywords.any (fun kw => pyContains (strToLower name) (strToLower kw))

/-- The command-text fallback chain of `WindowsProcessMonitor._wmi_monitor_loop`:
`CommandLine` when present and not whitespace-only, else `ExecutablePath`
(`none` covers a missing or null attribute; an empty one falls through), else
the bare process name. -/
def wmiCommandText (cmdLine exePath : Option String) (name : String) : String :=
  let c1 :=
    match cmdLine with
    | none => exePath.getD name
    | some s => if strBlank s then exePath.getD name else s
  if c1 = "" then name else c1

/-- What the WMI loop hands to `_handle_suspicious_command` for one process
event, if anything. -/
def wmiDelivered (keywords : List String) (cmdLine exePath : Option String)
    (name : String) : Option String :=
  let cmd := wmiCommandText cmdLine exePath name
  if isSuspicious keywords cmd ∨ isSuspiciousExe keywords name then some cmd else none

/-- `WindowsProcessMonitor._polling_loop`: `" ".join(cmdline) if cmdline else
name` — there is no executable-path step here. -/
def windowsPollCommandText (cmdline : List String) (name : String) : String :=
  if ¬ cmdline.isEmpty then String.intercalate " " cmdline else name

/-- What the Windows polling loop hands to the handler for one new pid. -/
def windowsPollDelivered (keywords : List String) (cmdline : List String)
    (name : String) : Option String :=
  let full := windowsPollCommandText cmdline name
  if isSuspicious keywords full ∨ isSuspiciousExe keywords name then some full else none

/-- What `UnixProcessMonitor._polling_loop` hands to the handler for one new
pid: a process with an empty `cmdline` is skipped (`continue`) before any
text is built, and only a suspicious joined command line is delivered. -/
def unixPollDelivered (keywords : List String) (cmdline : List String) : Option String :=
  if cmdline.isEmpty then none
  else
    let full := String.intercalate " " cmdline
    if isSuspicious keywords full then some full else none

/-- A convenient freshly-constructed vault (all directories empty, ledger
initialized to the empty list). -/
def emptyVault : VaultState :=
  { incidents := [], artifacts := [], reports := [], ledgerFile := some [] }

/-- A stand-in digest function for concrete evaluations: the behaviour of the
vault never depends on what the digest function is, only on (in)equalities of
its outputs. -/
def idHash : String → String := fun s => s

/-! ### General lemmas about the helpers -/

theorem alistLookup_alistSet_self {β : Type} (l : List (String × β)) (k : String) (v : β) :
    alistLookup (alistSet l k v) k = some v := by
  induction l with
  | nil => simp [alistSet, alistLookup]
  | cons p rest ih =>
      obtain ⟨k0, v0⟩ := p
      by_cases h : k0 = k
      · subst h; simp [alistSet, alistLookup]
      · simp [alistSet, alistLookup, h, ih]

theorem mem_alistSet {β : Type} {l : List (String × β)} {k : String} {v : β} {p : String × β}
    (hp : p ∈ alistSet l k v) : p ∈ l ∨ p = (k, v) := by
  induction l with
  | nil =>
      simp [alistSet] at hp
      exact Or.inr hp
  | cons q rest ih =>
      obtain ⟨k0, v0⟩ := q
      by_cases h : k0 = k
      · subst h
        simp [alistSet] at hp
        rcases hp with h1 | h1
        · exact Or.inr h1
        · exact Or.inl (List.mem_cons_of_mem _ h1)
      · simp only [alistSet, if_neg h, List.mem_cons] at hp
        rcases hp with h1 | h1
        · exact Or.inl (by simp [h1])
        · rcases ih h1 with h2 | h2
          · exact Or.inl (List.mem_cons_of_mem _ h2)
          · exact Or.inr h2

theorem alistSet_alistSet_self {β : Type} (l : List (String × β)) (k : String) (v w : β) :
    alistSet (alistSet l k v) k w = alistSet l k w := by
  induction l with
  | nil => simp [alistSet]
  | cons q rest ih =>
      obtain ⟨k0, v0⟩ := q
      by_cases h : k0 = k
      · subst h; simp [alistSet]
      · simp [alistSet, h, ih]

theorem alistSet_of_lookup_none {β : Type} {l : List (String × β)} {k : String}
    (h : alistLookup l k = none) (v : β) : alistSet l k v = l ++ [(k, v)] := by
  induction l with
  | nil => simp [alistSet]
  | cons q rest ih =>
      obtain ⟨k0, v0⟩ := q
      by_cases hk : k0 = k
      · simp [alistLookup, hk] at h
      · simp only [alistLookup, if_neg hk] at h
        simp [alistSet, hk, ih h]

theorem alistRemove_append_of_lookup_none {β : Type} {l : List (String × β)} {k : String}
    (h : alistLookup l k = none) (v : β) : alistRemove (l ++ [(k, v)]) k = l := by
  induction l with
  | nil => simp [alistRemove]
  | cons q rest ih =>
      obtain ⟨k0, v0⟩ := q
      by_cases hk : k0 = k
      · simp [alistLookup, hk] at h
      · simp only [alistLookup, if_neg hk] at h
        simp [alistRemove, hk, ih h]

theorem alistLookup_mem {β : Type} {l : List (String × β)} {k : String} {v : β}
    (h : alistLookup l k = some v) : (k, v) ∈ l := by
  induction l with
  | nil => simp [alistLookup] at h
  | cons q rest ih =>
      obtain ⟨k0, v0⟩ := q
      by_cases hk : k0 = k
      · subst hk
        simp [alistLookup] at h
        simp [h]
      · simp only [alistLookup, if_neg hk] at h
        exact List.mem_cons_of_mem _ (ih h)

theorem findCustodyHash_append_of_none {eid : String} {l : List CustodyEntry}
    (h : findCustodyHash eid l = none) (e : CustodyEntry) :
    findCustodyHash eid (l ++ [e]) =
      if e.evidence_id = some eid then some e.hash_sha256 else none := by
  induction l with
  | nil => simp [findCustodyHash]
  | cons a rest ih =>
      by_cases ha : a.evidence_id = some eid
      · simp [findCustodyHash, ha] at h
      · simp only [findCustodyHash, if_neg ha] at h
        simp only [List.cons_append, findCustodyHash, if_neg ha]
        exact ih h

theorem verifySearch_of_all_none {hash : String → String} {eid : String}
    {custody : List CustodyEntry} {dirs : List (String × List (String × String))}
    (h : ∀ p ∈ dirs, alistLookup p.2 eid = none) :
    verifySearch hash eid custody dirs = false := by
  induction dirs with
  | nil => simp [verifySearch]
  | cons d rest ih =>
      obtain ⟨dn, files⟩ := d
      have h0 : alistLookup files eid = none := h (dn, files) (List.mem_cons_self _ _)
      simp only [verifySearch, h0]
      exact ih (fun p hp => h p (List.mem_cons_of_mem _ hp))

theorem verifySearch_alistSet_found {hash : String → String} {eid : String}
    {custody : List CustodyEntry} {dirs : List (String × List (String × String))}
    {inc content orig : String} {dir : List (String × String)}
    (hall : ∀ p ∈ dirs, alistLookup p.2 eid = none)
    (hdir : alistLookup dir eid = some content)
    (hcust : findCustodyHash eid custody = some orig) :
    verifySearch hash eid custody (alistSet dirs inc dir) = decide (hash content = orig) := by
  induction dirs with
  | nil => simp [alistSet, verifySearch, hdir, hcust]
  | cons d rest ih =>
      obtain ⟨dn, files⟩ := d
      by_cases hk : dn = inc
      · subst hk
        simp only [alistSet, if_pos rfl, verifySearch, hdir, hcust]
      · have h0 : alistLookup files eid = none := hall (dn, files) (List.mem_cons_self _ _)
        simp only [alistSet, if_neg hk, verifySearch, h0]
        exact ih (fun p hp => hall p (List.mem_cons_of_mem _ hp))

theorem isSuspicious_ne_empty {keywords : List String} {command : String}
    (h : isSuspicious keywords command = true) : command ≠ "" := by
  intro hc
  subst hc
  simp [isSuspicious] at h

/-! ### Lemmas about the vault operations -/

theorem readCustody_addCustodyEntry (entry : CustodyEntry) (st : VaultState) :
    readCustody (addCustodyEntry entry st) = readCustody st ++ [entry] := by
  simp [readCustody, addCustodyEntry]

theorem preserveEvidence_fst (hash : String → String)
    (incident_id content evidence_type ts iso : String) (st : VaultState) :
    (preserveEvidence hash incident_id content evidence_type ts iso st).1 =
      { st with
        incidents := alistSet st.incidents incident_id
          (alistSet ((alistLookup st.incidents incident_id).getD [])
            ("EVD-" ++ ts ++ "-" ++ evidence_type) content)
        ledgerFile := some (readCustody st ++
          [evidenceEntry hash incident_id content evidence_type ts iso]) } := rfl

theorem readCustody_applyOp (hash : String → String) (op : PreserveOp) (st : VaultState)
    (hrec : opRecords op = true) :
    readCustody (applyOp hash op st) = readCustody st ++ [opEntry hash op] := by
  cases op with
  | evidence i c e ts iso => rfl
  | artifact i sf sn c a ts iso => rfl
  | report i c rt ts iso =>
      have hrt : rt = "forensic" := by simpa [opRecords] using hrec
      subst hrt
      rfl

theorem readCustody_runOps (hash : String → String) (ops : List PreserveOp) (st : VaultState)
    (hops : ∀ op ∈ ops, opRecords op = true) :
    readCustody (runOps hash ops st) = readCustody st ++ ops.map (opEntry hash) := by
  induction ops generalizing st with
  | nil => simp [runOps]
  | cons op rest ih =>
      have hstep : runOps hash (op :: rest) st = runOps hash rest (applyOp hash op st) := rfl
      rw [hstep, ih (applyOp hash op st) (fun o ho => hops o (List.mem_cons_of_mem _ ho)),
        readCustody_applyOp hash op st (hops op (List.mem_cons_self _ _))]
      simp

/-! ### Lemmas about the real-time handler -/

theorem onSuspiciousCore_effects (keywords : List String) (ai : Option AiRes)
    (command name : String) (now : ℚ) (st : RTState)
    (h : (matchedKeywords keywords command).isEmpty = false ∨ isForensicTool name = true) :
    onSuspiciousCore keywords ai command name now st =
      { recent := alistSet st.recent (name ++ ":" ++ command) now
        detections := st.detections + 1
        queue := st.queue ++ [⟨command, matchedKeywords keywords command, name, true⟩] } := by
  have hcrit : (!(matchedKeywords keywords command).isEmpty || isForensicTool name) = true := by
    rcases h with h | h <;> simp [h]
  have hguard : ((matchedKeywords keywords command).isEmpty && !(isForensicTool name)) = false := by
    rcases h with h | h <;> simp [h]
  unfold onSuspiciousCore
  cases ai with
  | some res => simp [hguard, hcrit]
  | none => simp [hguard, hcrit]

theorem onSuspiciousCommand_fresh (keywords : List String) (ai : Option AiRes)
    (command name : String) (now : ℚ) (st : RTState)
    (hlk : alistLookup st.recent (name ++ ":" ++ command) = none) :
    onSuspiciousCommand keywords ai command name now st =
      onSuspiciousCore keywords ai command name now st := by
  unfold onSuspiciousCommand dedupSuppressed
  simp [hlk]

/-! ### Lemmas about the matcher -/

theorem findPattern_isSome {patterns : List (String × ThreatInfo)} {pat : String}
    {info : ThreatInfo} {cmd : String}
    (hmem : (pat, info) ∈ patterns) (hc : pyContains cmd (strToLower pat) = true) :
    ∃ j, findPattern patterns cmd = some j := by
  induction patterns with
  | nil => simp at hmem
  | cons q rest ih =>
      obtain ⟨p0, i0⟩ := q
      by_cases hq : pyContains cmd (strToLower p0) = true
      · exact ⟨i0, by simp [findPattern, hq]⟩
      · rcases List.mem_cons.mp hmem with he | hm
        · have hp : pat = p0 := congrArg Prod.fst he
          rw [hp] at hc
          exact absurd hc hq
        · rcases ih hm with ⟨j, hj⟩
          refine ⟨j, ?_⟩
          simp only [findPattern, hj]
          rw [if_neg hq]

/-! ### The checked properties -/

/-- C9: a `preserve_file_artifact` call in which copying the source file into
the vault raises an exception returns the empty string and leaves the custody
ledger file exactly as it was — no entry is appended for the failed
preservation. -/
theorem C9_failed_copy_leaves_ledger (hash : String → String)
    (incident_id source_file source_name artifact_type ts iso : String) (st : VaultState) :
    (preserveFileArtifact hash incident_id source_file source_name none
        artifact_type ts iso st).2 = "" ∧
    (preserveFileArtifact hash incident_id source_file source_name none
        artifact_type ts iso st).1.ledgerFile = st.ledgerFile :=
  ⟨rfl, rfl⟩

/-- C10: constructing an `EvidenceVault` over a vault path whose custody
ledger file already exists leaves the whole state — every existing ledger
entry included — untouched; the ledger is initialized to the empty list only
when the ledger file is absent, and even then no other stored file changes. -/
theorem C10_reinit_preserves_ledger (st : VaultState) (l : List CustodyEntry) :
    (st.ledgerFile = some l → vaultInit st = st) ∧
    (st.ledgerFile = none →
      (vaultInit st).ledgerFile = some [] ∧
      (vaultInit st).incidents = st.incidents ∧
      (vaultInit st).artifacts = st.artifacts ∧
      (vaultInit st).reports = st.reports) := by
  obtain ⟨i, a, r, led⟩ := st
  cases led <;> simp [vaultInit, initChainOfCustody]

theorem C10_reinit_preserves_ledger_witness :
    vaultInit emptyVault = emptyVault :=
  (C10_reinit_preserves_ledger emptyVault []).1 rfl

/-- C3 counterexample: two distinct `emergency_snapshot` calls (different
threat types and commands) whose `datetime.now()` stamps fall in the same
second return the same snapshot id, so snapshot ids are not globally
unique. -/
theorem C3_counterexample :
    (emergencySnapshot "20240101-120000" "log_clearing" "wevtutil cl Security" true).1 =
    (emergencySnapshot "20240101-120000" "vss_deletion" "vssadmin delete shadows /all" false).1 :=
  rfl

/-- C3 (amended): two `emergency_snapshot` calls return distinct snapshot ids
exactly when their second-granularity timestamp strings differ; calls that
fall in the same second return the same id. -/
theorem C3_snapshot_id_unique_iff (ts1 ts2 threat1 cmd1 threat2 cmd2 : String)
    (net1 net2 : Bool) :
    (emergencySnapshot ts1 threat1 cmd1 net1).1 = (emergencySnapshot ts2 threat2 cmd2 net2).1
      ↔ ts1 = ts2 := by
  constructor
  · intro h
    have hd := congrArg String.data h
    simp [emergencySnapshot, String.data_append] at hd
    exact String.ext hd
  · intro h
    simp [emergencySnapshot, h]

/-- C5 counterexample: for `threat_type = vss_deletion` the launched capture
tasks include the volume-shadow-state task even on a platform that does not
support it (the thread list built by `emergency_snapshot` does not depend on
the platform; the task body merely returns early off Windows), refuting
"included exactly on platforms that support it". -/
theorem C5_counterexample :
    CaptureTask.vssState ∈ snapshotTasks "vss_deletion" true ∧
    vssSupported "linux" = false := by
  constructor
  · simp [snapshotTasks]
  · rfl

/-- C5 (amended): a `log_clearing` trigger always launches the log-artifact
task together with the always-on process-state task (and the network task
when network capture is enabled); a `vss_deletion` trigger launches the
volume-shadow-state task on every platform, but that task writes a
volume-state artifact only on Windows — elsewhere it returns at once with no
artifact and no error — and on Windows it records the tool's output. -/
theorem C5_task_selection (net : Bool) (os_type out : String) (vss_cmd : Option String) :
    (CaptureTask.eventLogs ∈ snapshotTasks "log_clearing" net ∧
     CaptureTask.processState ∈ snapshotTasks "log_clearing" net ∧
     (net = true → CaptureTask.networkState ∈ snapshotTasks "log_clearing" net)) ∧
    CaptureTask.vssState ∈ snapshotTasks "vss_deletion" net ∧
    (os_type ≠ "windows" → snapshotVssState os_type vss_cmd = none) ∧
    snapshotVssState "windows" (some out) = some ("vss_state.txt", out) := by
  refine ⟨⟨?_, ?_, ?_⟩, ?_, ?_, ?_⟩
  · cases net <;> simp [snapshotTasks]
  · cases net <;> simp [snapshotTasks]
  · intro h; subst h; simp [snapshotTasks]
  · cases net <;> simp [snapshotTasks]
  · intro h; simp [snapshotVssState, h]
  · rfl

theorem C5_task_selection_witness :
    snapshotVssState "darwin" (some "shadow listing") = none :=
  (C5_task_selection true "darwin" "shadow listing" (some "shadow listing")).2.2.1 (by decide)

/-- C2 counterexample: a `save_report` call with the default report type
`"technical"` is a preservation operation in the claim's sense but appends no
custody entry, so after this single operation the ledger count equals the
prior count plus zero, not plus one. -/
theorem C2_counterexample :
    ¬ ((readCustody (saveReport idHash "INC-1" "report body" "technical"
          "20240101-000000" "2024-01-01T00:00:00" emptyVault).1).length
        = (readCustody emptyVault).length + 1) := by
  decide

/-- C2 (amended): for every sequence of custody-recording preservation
operations — `preserve_evidence` calls, successful `preserve_file_artifact`
calls, and `save_report` calls with report type `"forensic"` (non-forensic
reports bypass the ledger) — the ledger afterwards is exactly the prior
ledger with one new entry appended per operation: its count is the prior
count plus N, and the prior entries form an unchanged prefix. -/
theorem C2_ledger_growth (hash : String → String) (ops : List PreserveOp)
    (st : VaultState) (l : List CustodyEntry)
    (hl : st.ledgerFile = some l)
    (hops : ∀ op ∈ ops, opRecords op = true) :
    readCustody (runOps hash ops st) = l ++ ops.map (opEntry hash) ∧
    (readCustody (runOps hash ops st)).length = l.length + ops.length ∧
    (readCustody (runOps hash ops st)).take l.length = l := by
  have h0 : readCustody st = l := by simp [readCustody, hl]
  have h1 := readCustody_runOps hash ops st hops
  rw [h0] at h1
  refine ⟨h1, ?_, ?_⟩
  · rw [h1]; simp
  · rw [h1]; exact List.take_left _ _

theorem C2_ledger_growth_witness :
    (readCustody (runOps idHash
      [PreserveOp.evidence "INC-1" "{}" "general" "20240101-000001" "i1",
       PreserveOp.artifact "INC-1" "/tmp/a.log" "a.log" "data" "file" "20240101-000002" "i2",
       PreserveOp.report "INC-1" "body" "forensic" "20240101-000003" "i3"]
      emptyVault)).length = ([] : List CustodyEntry).length + 3 :=
  (C2_ledger_growth idHash
    [PreserveOp.evidence "INC-1" "{}" "general" "20240101-000001" "i1",
     PreserveOp.artifact "INC-1" "/tmp/a.log" "a.log" "data" "file" "20240101-000002" "i2",
     PreserveOp.report "INC-1" "body" "forensic" "20240101-000003" "i3"]
    emptyVault [] rfl (by decide)).2.1

/-- C4: when obfuscation markers were detected, the severity reported by
`should_capture` for the matched table entry stays CRITICAL if the baseline
is CRITICAL, and otherwise is raised exactly one step on the ladder
LOW→MEDIUM→HIGH→CRITICAL (CRITICAL is a ceiling); the threat type is
unchanged by the escalation. -/
theorem C4_obfuscation_ladder (p : Platform) (command decoded : String)
    (obf : List String) (info : ThreatInfo)
    (hobf : obf ≠ [])
    (hmatch : findFirstMatch (threatPatterns p) [strToLower command, strToLower decoded]
      = some info) :
    ∃ r, shouldCapture (threatPatterns p) true command decoded obf = some r ∧
      r.threat_type = info.threat_type ∧
      (info.severity = "CRITICAL" → r.severity = "CRITICAL") ∧
      (info.severity = "LOW" → r.severity = "MEDIUM") ∧
      (info.severity = "MEDIUM" → r.severity = "HIGH") ∧
      (info.severity = "HIGH" → r.severity = "CRITICAL") := by
  have hne : ¬ obf.isEmpty := by simpa [List.isEmpty_iff] using hobf
  unfold shouldCapture
  rw [if_neg (by simp), hmatch]
  dsimp only
  by_cases hcrit : info.severity = "CRITICAL"
  · rw [if_neg (fun h => h.2 hcrit)]
    refine ⟨info, rfl, rfl, fun _ => hcrit, ?_, ?_, ?_⟩ <;>
      exact fun h => absurd (hcrit.symm.trans h) (by decide)
  · rw [if_pos ⟨hne, hcrit⟩]
    refine ⟨_, rfl, rfl, fun h => absurd h hcrit, ?_, ?_, ?_⟩ <;>
      · intro h
        show severityUpgrade info.severity = _
        rw [h]
        decide

theorem C4_obfuscation_ladder_witness :
    ∃ r, shouldCapture (threatPatterns Platform.linux) true "history -c" "history -c" ["hex"]
        = some r ∧
      r.threat_type = (ThreatInfo.mk "log_clearing" "MEDIUM" "Command history clearing").threat_type ∧
      ((ThreatInfo.mk "log_clearing" "MEDIUM" "Command history clearing").severity = "CRITICAL" →
        r.severity = "CRITICAL") ∧
      ((ThreatInfo.mk "log_clearing" "MEDIUM" "Command history clearing").severity = "LOW" →
        r.severity = "MEDIUM") ∧
      ((ThreatInfo.mk "log_clearing" "MEDIUM" "Command history clearing").severity = "MEDIUM" →
        r.severity = "HIGH") ∧
      ((ThreatInfo.mk "log_clearing" "MEDIUM" "Command history clearing").severity = "HIGH" →
        r.severity = "CRITICAL") :=
  C4_obfuscation_ladder Platform.linux "history -c" "history -c" ["hex"]
    (ThreatInfo.mk "log_clearing" "MEDIUM" "Command history clearing")
    (by decide) (by decide)

/-- C7 counterexample: on Windows the command
`wevtutil cl Security & vssadmin delete shadows /all` contains the table
signature `vssadmin delete` (threat type `vss_deletion`), yet the matcher
returns the `wevtutil` entry — threat type `log_clearing` — because the first
matching table entry wins; so a command containing a signature need not be
classified with that signature's threat type. -/
theorem C7_counterexample :
    ("vssadmin delete",
      ThreatInfo.mk "vss_deletion" "CRITICAL" "Volume Shadow Copy deletion")
        ∈ threatPatterns Platform.windows ∧
    pyContains (strToLower "wevtutil cl Security & vssadmin delete shadows /all")
      (strToLower "vssadmin delete") = true ∧
    (shouldCapture (threatPatterns Platform.windows) true
        "wevtutil cl Security & vssadmin delete shadows /all"
        "wevtutil cl Security & vssadmin delete shadows /all" []).map ThreatInfo.threat_type
      = some "log_clearing" ∧
    "log_clearing" ≠ "vss_deletion" := by
  refine ⟨by decide, by decide, by decide, by decide⟩

/-- C7 (amended): for every signature in the platform's table, a command
containing that signature (case-insensitively, at any position) always
produces a match, but the match carries the threat type of the *first* table
entry whose pattern occurs in the command (table order; original command
checked before the decoded form); it equals the given signature's threat type
whenever that signature's entry is the one the first-match scan returns — in
particular whenever it is the only matching entry. -/
theorem C7_signature_first_match (p : Platform) (pat : String) (info : ThreatInfo)
    (command decoded : String) (obf : List String)
    (hmem : (pat, info) ∈ threatPatterns p)
    (hc : pyContains (strToLower command) (strToLower pat) = true) :
    ∃ r info0, findPattern (threatPatterns p) (strToLower command) = some info0 ∧
      shouldCapture (threatPatterns p) true command decoded obf = some r ∧
      r.threat_type = info0.threat_type ∧
      (findPattern (threatPatterns p) (strToLower command) = some info →
        r.threat_type = info.threat_type) := by
  rcases findPattern_isSome hmem hc with ⟨j, hj⟩
  have hfm : findFirstMatch (threatPatterns p) [strToLower command, strToLower decoded] = some j := by
    simp [findFirstMatch, hj]
  unfold shouldCapture
  rw [if_neg (by simp), hfm]
  dsimp only
  by_cases hcond : ¬ obf.isEmpty ∧ j.severity ≠ "CRITICAL"
  · rw [if_pos hcond]
    refine ⟨_, j, hj, rfl, rfl, fun h => ?_⟩
    have hji : j = info := by
      rw [hj] at h
      exact Option.some.inj h
    subst hji
    rfl
  · rw [if_neg hcond]
    refine ⟨j, j, hj, rfl, rfl, fun h => ?_⟩
    have hji : j = info := by
      rw [hj] at h
      exact Option.some.inj h
    subst hji
    rfl

theorem C7_signature_first_match_witness :
    ∃ r info0,
      findPattern (threatPatterns Platform.windows)
        (strToLower "bcdedit /set nointegritychecks on") = some info0 ∧
      shouldCapture (threatPatterns Platform.windows) true
        "bcdedit /set nointegritychecks on" "bcdedit /set nointegritychecks on" [] = some r ∧
      r.threat_type = info0.threat_type ∧
      (findPattern (threatPatterns Platform.windows)
          (strToLower "bcdedit /set nointegritychecks on")
        = some (ThreatInfo.mk "boot_config" "HIGH" "Boot configuration modification") →
        r.threat_type
          = (ThreatInfo.mk "boot_config" "HIGH" "Boot configuration modification").threat_type) :=
  C7_signature_first_match Platform.windows "bcdedit"
    (ThreatInfo.mk "boot_config" "HIGH" "Boot configuration modification")
    "bcdedit /set nointegritychecks on" "bcdedit /set nointegritychecks on" []
    (by decide) (by decide)

/-- C6: for a pair of suspicious events sharing the `(process name, command)`
dedup key, with the key fresh in the dedup map: when the second event arrives
less than 30 seconds after the first it is counted (`detections` rises by
two) but enqueues no second incident, so exactly one trigger occurs; when it
arrives more than 30 seconds after, both events trigger, enqueuing exactly
two incidents. -/
theorem C6_dedup_window (keywords : List String) (ai1 ai2 : Option AiRes)
    (command name : String) (t1 t2 : ℚ) (st : RTState)
    (hfresh : alistLookup st.recent (name ++ ":" ++ command) = none)
    (hsusp : (matchedKeywords keywords command).isEmpty = false ∨ isForensicTool name = true) :
    (t2 - t1 < 30 →
      (onSuspiciousCommand keywords ai2 command name t2
        (onSuspiciousCommand keywords ai1 command name t1 st)).queue.length
        = st.queue.length + 1 ∧
      (onSuspiciousCommand keywords ai2 command name t2
        (onSuspiciousCommand keywords ai1 command name t1 st)).detections
        = st.detections + 2) ∧
    (30 < t2 - t1 →
      (onSuspiciousCommand keywords ai2 command name t2
        (onSuspiciousCommand keywords ai1 command name t1 st)).queue.length
        = st.queue.length + 2 ∧
      (onSuspiciousCommand keywords ai2 command name t2
        (onSuspiciousCommand keywords ai1 command name t1 st)).detections
        = st.detections + 2) := by
  have hs1 : onSuspiciousCommand keywords ai1 command name t1 st =
      { recent := alistSet st.recent (name ++ ":" ++ command) t1
        detections := st.detections + 1
        queue := st.queue ++ [⟨command, matchedKeywords keywords command, name, true⟩] } := by
    rw [onSuspiciousCommand_fresh keywords ai1 command name t1 st hfresh,
      onSuspiciousCore_effects keywords ai1 command name t1 st hsusp]
  rw [hs1]
  have hlk1 : alistLookup (alistSet st.recent (name ++ ":" ++ command) t1)
      (name ++ ":" ++ command) = some t1 := alistLookup_alistSet_self _ _ _
  constructor
  · intro h30
    have hded : dedupSuppressed (alistSet st.recent (name ++ ":" ++ command) t1)
        (name ++ ":" ++ command) t2 = true := by
      simp [dedupSuppressed, hlk1, h30]
    unfold onSuspiciousCommand
    rw [if_pos hded]
    simp
  · intro h30
    have hded : dedupSuppressed (alistSet st.recent (name ++ ":" ++ command) t1)
        (name ++ ":" ++ command) t2 = false := by
      simp only [dedupSuppressed, hlk1]
      simp [not_lt.mpr (le_of_lt h30)]
    unfold onSuspiciousCommand
    rw [if_neg (by simp [hded]),
      onSuspiciousCore_effects keywords ai2 command name t2 _ hsusp]
    simp

theorem C6_dedup_window_witness :
    ((onSuspiciousCommand ["vssadmin"] (some ⟨true⟩) "vssadmin delete shadows" "vssadmin.exe"
        29 (onSuspiciousCommand ["vssadmin"] (some ⟨true⟩) "vssadmin delete shadows"
          "vssadmin.exe" 0 ⟨[], 0, []⟩)).queue.length = ([] : List WorkItem).length + 1) ∧
    ((onSuspiciousCommand ["vssadmin"] (some ⟨true⟩) "vssadmin delete shadows" "vssadmin.exe"
        29 (onSuspiciousCommand ["vssadmin"] (some ⟨true⟩) "vssadmin delete shadows"
          "vssadmin.exe" 0 ⟨[], 0, []⟩)).detections = 0 + 2) :=
  (C6_dedup_window ["vssadmin"] (some ⟨true⟩) (some ⟨true⟩) "vssadmin delete shadows"
    "vssadmin.exe" 0 29 ⟨[], 0, []⟩ rfl (Or.inl (by decide))).1 (by norm_num)

/-- C8 counterexample: the Windows polling loop builds
`" ".join(cmdline) if cmdline else name`, so a process whose command-line
list is `[""]` (non-empty list, empty joined text) and whose executable name
matches a keyword is delivered to the handler with an *empty* command text. -/
theorem C8_counterexample :
    windowsPollDelivered ["vssadmin"] [""] "vssadmin.exe" = some "" := by
  decide

/-- C8 (amended): the event-driven (WMI) strategy follows the fallback chain
command line → executable path → bare process name and delivers non-empty
text whenever the process name is non-empty; the polling strategies never
consult the executable path — the Windows poller falls back directly from the
joined command line to the bare name (delivering empty text only when a
non-empty command-line list joins to the empty string), and the Unix poller
skips processes without a command line and never delivers empty text. -/
theorem C8_command_text_fallback (keywords : List String)
    (cmdLine exePath : Option String) (name : String) (cmdline : List String) (t : String) :
    (∀ s, cmdLine = some s → strBlank s = false → wmiCommandText cmdLine exePath name = s) ∧
    (∀ e, e ≠ "" → wmiCommandText none (some e) name = e) ∧
    wmiCommandText none none name = name ∧
    (name ≠ "" → wmiCommandText cmdLine exePath name ≠ "") ∧
    (name ≠ "" → ∀ c, wmiDelivered keywords cmdLine exePath name = some c → c ≠ "") ∧
    windowsPollCommandText cmdline name =
      (if cmdline = [] then name else String.intercalate " " cmdline) ∧
    (name ≠ "" → (cmdline ≠ [] → String.intercalate " " cmdline ≠ "") →
      ∀ c, windowsPollDelivered keywords cmdline name = some c → c ≠ "") ∧
    (unixPollDelivered keywords cmdline = some t →
      t ≠ "" ∧ cmdline ≠ [] ∧ t = String.intercalate " " cmdline) := by
  have h4 : name ≠ "" → wmiCommandText cmdLine exePath name ≠ "" := by
    intro hname
    cases cmdLine with
    | none =>
        cases exePath with
        | none => simpa [wmiCommandText] using hname
        | some e =>
            by_cases he : e = ""
            · simp [wmiCommandText, he, hname]
            · simp [wmiCommandText, he]
    | some s =>
        by_cases hb : strBlank s = true
        · cases exePath with
          | none => simp [wmiCommandText, hb, hname]
          | some e =>
              by_cases he : e = ""
              · simp [wmiCommandText, hb, he, hname]
              · simp [wmiCommandText, hb, he]
        · have hs : s ≠ "" := by
            intro h
            exact hb (by rw [h]; rfl)
          simp [wmiCommandText, hb, hs]
  refine ⟨?_, ?_, ?_, h4, ?_, ?_, ?_, ?_⟩
  · intro s hcl hs
    subst hcl
    have hs' : s ≠ "" := by
      intro h
      rw [h] at hs
      simp [strBlank] at hs
    simp [wmiCommandText, hs, hs']
  · intro e he
    simp [wmiCommandText, he]
  · simp [wmiCommandText]
  · intro hname c hc
    simp only [wmiDelivered] at hc
    split at hc
    · cases hc
      exact h4 hname
    · exact absurd hc (by simp)
  · cases cmdline <;> simp [windowsPollCommandText]
  · intro hname hjoin c hc
    simp only [windowsPollDelivered] at hc
    split at hc
    · cases hc
      cases cmdline with
      | nil => simpa [windowsPollCommandText] using hname
      | cons a l =>
          have hj : String.intercalate " " (a :: l) ≠ "" := hjoin (by simp)
          simpa [windowsPollCommandText] using hj
    · exact absurd hc (by simp)
  · intro ht
    simp only [unixPollDelivered] at ht
    split at ht
    · exact absurd ht (by simp)
    · rename_i hni
      split at ht
      · rename_i hsusp
        cases ht
        refine ⟨isSuspicious_ne_empty hsusp, ?_, rfl⟩
        simpa [List.isEmpty_iff] using hni
      · exact absurd ht (by simp)

theorem C8_command_text_fallback_witness :
    ("shred -u secret" : String) ≠ "" ∧ (["shred", "-u", "secret"] : List String) ≠ [] ∧
      "shred -u secret" = String.intercalate " " ["shred", "-u", "secret"] :=
  (C8_command_text_fallback ["shred"] none none "" ["shred", "-u", "secret"]
    "shred -u secret").2.2.2.2.2.2.2 (by decide)

/-- C1 counterexample: immediately after `preserve_file_artifact`, integrity
verification on the returned artifact id is `False`, not `True`:
`verify_evidence_integrity` searches only `incidents/*/<id>.json` and matches
ledger entries by their `evidence_id` key, while the artifact is stored under
`artifacts/` with an `artifact_id`-keyed entry. -/
theorem C1_counterexample :
    (preserveFileArtifact idHash "INC-1" "/tmp/x.log" "x.log" (some "data") "file"
        "20240101-000000" "2024-01-01T00:00:00" emptyVault).2 = "ART-20240101-000000-file" ∧
    verifyEvidenceIntegrity idHash "ART-20240101-000000-file"
      (preserveFileArtifact idHash "INC-1" "/tmp/x.log" "x.log" (some "data") "file"
        "20240101-000000" "2024-01-01T00:00:00" emptyVault).1 = false := by
  constructor
  · decide
  · decide

/-- C1 (amended): the preserve-then-verify round trip holds for evidence, not
for file artifacts: `preserve_evidence` followed immediately by
`verify_evidence_integrity` on the returned evidence id yields `True`
(for a fresh evidence id whose file name does not already occur in the vault
and with no hash collision); modifying the stored copy afterwards makes
verification return `False`, and deleting the stored copy also makes it
return `False`. -/
theorem C1_evidence_integrity_roundtrip (hash : String → String) (st : VaultState)
    (l : List CustodyEntry) (incident_id content evidence_type ts iso tampered : String)
    (hl : st.ledgerFile = some l)
    (hfresh : findCustodyHash ("EVD-" ++ ts ++ "-" ++ evidence_type) l = none)
    (hnofile : ∀ p ∈ st.incidents,
      alistLookup p.2 ("EVD-" ++ ts ++ "-" ++ evidence_type) = none)
    (hhash : hash tampered ≠ hash content) :
    (preserveEvidence hash incident_id content evidence_type ts iso st).2
      = "EVD-" ++ ts ++ "-" ++ evidence_type ∧
    verifyEvidenceIntegrity hash ("EVD-" ++ ts ++ "-" ++ evidence_type)
      (preserveEvidence hash incident_id content evidence_type ts iso st).1 = true ∧
    verifyEvidenceIntegrity hash ("EVD-" ++ ts ++ "-" ++ evidence_type)
      (modifyEvidenceFile incident_id ("EVD-" ++ ts ++ "-" ++ evidence_type) tampered
        (preserveEvidence hash incident_id content evidence_type ts iso st).1) = false ∧
    verifyEvidenceIntegrity hash ("EVD-" ++ ts ++ "-" ++ evidence_type)
      (deleteEvidenceFile incident_id ("EVD-" ++ ts ++ "-" ++ evidence_type)
        (preserveEvidence hash incident_id content evidence_type ts iso st).1) = false := by
  have hrc : readCustody st = l := by simp [readCustody, hl]
  have hr1 := preserveEvidence_fst hash incident_id content evidence_type ts iso st
  rw [hrc] at hr1
  obtain ⟨E, hE⟩ : ∃ E, E = "EVD-" ++ ts ++ "-" ++ evidence_type := ⟨_, rfl⟩
  rw [← hE] at hfresh hnofile hr1 ⊢
  obtain ⟨D, hD⟩ : ∃ D, D = (alistLookup st.incidents incident_id).getD [] := ⟨_, rfl⟩
  rw [← hD] at hr1
  obtain ⟨entry, hent⟩ :
      ∃ e, e = evidenceEntry hash incident_id content evidence_type ts iso := ⟨_, rfl⟩
  rw [← hent] at hr1
  have hDnone : alistLookup D E = none := by
    rw [hD]
    rcases hcase : alistLookup st.incidents incident_id with _ | d
    · rfl
    · exact hnofile (incident_id, d) (alistLookup_mem hcase)
  have hcust : findCustodyHash E (l ++ [entry]) = some (hash content) := by
    rw [findCustodyHash_append_of_none hfresh]
    rw [hent, hE]
    simp [evidenceEntry]
  have hlkA : alistLookup
      (alistSet st.incidents incident_id (alistSet D E content)) incident_id
      = some (alistSet D E content) := alistLookup_alistSet_self _ _ _
  refine ⟨by rw [hE]; rfl, ?_, ?_, ?_⟩
  · rw [hr1]
    show verifySearch hash E (l ++ [entry])
      (alistSet st.incidents incident_id (alistSet D E content)) = true
    rw [verifySearch_alistSet_found hnofile (alistLookup_alistSet_self _ _ _) hcust]
    simp
  · rw [hr1]
    show verifySearch hash E (l ++ [entry])
      (alistSet (alistSet st.incidents incident_id (alistSet D E content)) incident_id
        (alistSet ((alistLookup
          (alistSet st.incidents incident_id (alistSet D E content)) incident_id).getD [])
          E tampered)) = false
    rw [hlkA]
    show verifySearch hash E (l ++ [entry])
      (alistSet (alistSet st.incidents incident_id (alistSet D E content)) incident_id
        (alistSet (alistSet D E content) E tampered)) = false
    rw [alistSet_alistSet_self, alistSet_alistSet_self,
      verifySearch_alistSet_found hnofile (alistLookup_alistSet_self _ _ _) hcust]
    simp [hhash]
  · rw [hr1]
    show verifySearch hash E (l ++ [entry])
      (alistSet (alistSet st.incidents incident_id (alistSet D E content)) incident_id
        (alistRemove ((alistLookup
          (alistSet st.incidents incident_id (alistSet D E content)) incident_id).getD [])
          E)) = false
    rw [hlkA]
    show verifySearch hash E (l ++ [entry])
      (alistSet (alistSet st.incidents incident_id (alistSet D E content)) incident_id
        (alistRemove (alistSet D E content) E)) = false
    rw [alistSet_of_lookup_none hDnone content,
      alistRemove_append_of_lookup_none hDnone content, alistSet_alistSet_self]
    refine verifySearch_of_all_none ?_
    intro p hp
    rcases mem_alistSet hp with h | h
    · exact hnofile p h
    · rw [h]
      exact hDnone

theorem C1_evidence_integrity_roundtrip_witness :
    verifyEvidenceIntegrity idHash ("EVD-" ++ "20240101-000000" ++ "-" ++ "general")
      (preserveEvidence idHash "INC-1" "data" "general" "20240101-000000"
        "2024-01-01T00:00:00" emptyVault).1 = true :=
  (C1_evidence_integrity_roundtrip idHash emptyVault [] "INC-1" "data" "general"
    "20240101-000000" "2024-01-01T00:00:00" "tampered" rfl rfl (by simp [emptyVault])
    (by decide)).2.1

end ShadowNet
